import Mathlib

/-!
Verification of the pluto-src build orchestrator (src/src/lib.rs).

The Rust code is shallowly embedded: the `cc::Build` toolchain configuration
becomes the record `CcBuild` (only the operations the orchestrator uses are
modelled, each as a pure record update); the process environment becomes a
snapshot `Env := String → Option String`; the file system becomes an oracle
`Fs` (path existence plus directory listing); `Build::build` becomes a pure
function returning the result together with the trace of file-system effects
(directory removal and compiler invocations) in program order.  `env::var`
failures (unset variable) are `none`; `expect`/`unwrap` panics are modelled
as `Except.error`.  The `cfg!(debug_assertions)` compile-time constant is a
boolean parameter.
-/

/-- A snapshot of the process environment: `env::var(k)` is `env k`. -/
def Env : Type := String → Option String

/-- Predicate: does `pat` occur as a contiguous sublist of `l`?
Checks `pat.isPrefixOf` at every suffix of `l`, mirroring `str::contains`. -/
def isSubAux (pat : List Char) : List Char → Bool
  | [] => pat.isPrefixOf ([] : List Char)
  | c :: cs => pat.isPrefixOf (c :: cs) || isSubAux pat cs

/-- Embeds Rust `s.contains(pat)` (substring containment). -/
def strContains (s pat : String) : Bool := isSubAux pat.toList s.toList

/-- Embeds `target.replace('-', "_")`: every hyphen becomes an underscore. -/
def replaceHyphens (s : String) : String :=
  String.mk (s.toList.map (fun c => if c = '-' then '_' else c))

/-- Embeds `Path::extension` on a file name: the part after the last dot,
`none` when there is no dot or the stem before it is empty (hidden files). -/
def fileExtension (name : String) : Option String :=
  let r := name.toList.reverse
  let ext := r.takeWhile (fun c => c ≠ '.')
  match r.dropWhile (fun c => c ≠ '.') with
  | [] => none
  | _ :: stem => if stem = [] then none else some (String.mk ext.reverse)

/-- The slice of `cc::Build` the orchestrator uses (src/src/lib.rs lines
72-132): each builder call below appends to / sets the matching field. -/
structure CcBuild where
  target : Option String
  host : Option String
  warnings : Option Bool
  cargo_metadata : Bool
  std : Option String
  cpp : Bool
  flags_supported : List String
  definitions : List (String × Option String)
  opt_level : Option Nat
  files : List String
  out_dir : Option String
deriving Repr, DecidableEq

/-- Embeds `cc::Build::new()`: the defaults of the modelled fields. -/
def ccNew : CcBuild :=
  { target := none, host := none, warnings := none, cargo_metadata := true,
    std := none, cpp := false, flags_supported := [], definitions := [],
    opt_level := none, files := [], out_dir := none }

/-- Embeds `cc::Build::define(k, v)`. -/
def CcBuild.define (c : CcBuild) (k : String) (v : Option String) : CcBuild :=
  { c with definitions := c.definitions ++ [(k, v)] }

/-- Embeds `cc::Build::flag_if_supported(f)`: the request is recorded; whether the
toolchain accepts it is the opaque external probe (best-effort, never fatal). -/
def CcBuild.flagIfSupported (c : CcBuild) (f : String) : CcBuild :=
  { c with flags_supported := c.flags_supported ++ [f] }

/-- Embeds `cc::Build::opt_level(n)`. -/
def CcBuild.optLevel (c : CcBuild) (n : Nat) : CcBuild :=
  { c with opt_level := some n }

/-- Embeds `cc::Build::out_dir(p)`. -/
def CcBuild.setOutDir (c : CcBuild) (p : String) : CcBuild :=
  { c with out_dir := some p }

/-- The file-system oracle: `Path::exists` and `fs::read_dir` (a listing of
file names, `none` when the directory is unreadable). -/
structure Fs where
  pathExists : String → Bool
  readDir : String → Option (List String)

/-- A file-system-affecting step of `build()`, in program order. -/
inductive FsOp where
  | removeDirAll : String → FsOp
  | compile : CcBuild → String → FsOp
deriving Repr, DecidableEq

/-- Embeds `add_files_by_ext(dir, ext)` (src/src/lib.rs lines 199-208): enumerate
`dir`, keep entries whose extension is `ext`, register each as a source file.
`none` models the `fs::read_dir(dir).unwrap()` panic on an unreadable dir. -/
def addFilesByExt (fs : Fs) (dir ext : String) (c : CcBuild) : Option CcBuild :=
  match fs.readDir dir with
  | none => none
  | some entries =>
    let found := (entries.filter (fun e => fileExtension e == some ext)).map
      (fun e => dir ++ "/" ++ e)
    some { c with files := c.files ++ found }

/-- The user-facing builder (src/src/lib.rs lines 5-13). -/
structure Build where
  out_dir : Option String
  target : Option String
  host : Option String
  max_stack_size : Option Nat
  use_longjmp : Option Bool
deriving Repr, DecidableEq

/-- Embeds `Build::new()` (lines 23-31): defaults snapshotted from the environment,
the scratch dir extended by the fixed subdirectory `pluto-build`. -/
def Build.new (env : Env) : Build :=
  { out_dir := (env "OUT_DIR").map (fun s => s ++ "/pluto-build"),
    target := env "TARGET", host := env "HOST",
    max_stack_size := none, use_longjmp := none }

/-- Setter `Build::out_dir` (lines 33-36). -/
def Build.setOutDirOpt (b : Build) (p : String) : Build :=
  { b with out_dir := some p }

/-- Setter `Build::target` (lines 38-41). -/
def Build.setTarget (b : Build) (t : String) : Build :=
  { b with target := some t }

/-- Setter `Build::host` (lines 43-46). -/
def Build.setHost (b : Build) (h : String) : Build :=
  { b with host := some h }

/-- Setter `Build::set_max_stack_size` (lines 48-51). -/
def Build.set_max_stack_size (b : Build) (n : Nat) : Build :=
  { b with max_stack_size := some n }

/-- Setter `Build::use_longjmp` (lines 53-56). -/
def Build.setUseLongjmp (b : Build) (u : Bool) : Build :=
  { b with use_longjmp := some u }

/-- The result value (lines 15-19). -/
structure Artifacts where
  lib_dir : String
  libs : List String
  cpp_stdlib : Option String
deriving Repr, DecidableEq

/-- Embeds `Build::get_cpp_link_stdlib(target, host)` (lines 149-171): layered
`CXXSTDLIB` environment overrides first (exact triple, underscore-normalized
triple, `HOST_`/`TARGET_` generic, fully generic), then the platform-family
fallback inferred from substrings of the target triple. -/
def get_cpp_link_stdlib (env : Env) (target host : String) : Option String :=
  let kind := if host = target then "HOST" else "TARGET"
  let res :=
    match env ("CXXSTDLIB_" ++ target) with
    | some v => some v
    | none =>
      match env ("CXXSTDLIB_" ++ replaceHyphens target) with
      | some v => some v
      | none =>
        match env (kind ++ "_CXXSTDLIB") with
        | some v => some v
        | none => env "CXXSTDLIB"
  match res with
  | some v => some v
  | none =>
    if strContains target "msvc" then none
    else if strContains target "apple" || strContains target "freebsd"
         || strContains target "openbsd" then some "c++"
    else if strContains target "android" then some "c++_shared"
    else some "stdc++"

/-- The shared base toolchain configuration (lines 72-99), parameterised by
the compile-time `cfg!(debug_assertions)` constant. -/
def baseConfig (target host : String) (max_stack_size : Option Nat)
    (use_longjmp : Option Bool) (debug_assertions : Bool) : CcBuild :=
  let c := { ccNew with target := some target, host := some host,
                        warnings := some false, cargo_metadata := false,
                        std := some "c++17", cpp := true }
  let c := ((c.flagIfSupported "-fvisibility=hidden").flagIfSupported
              "-fno-rtti").flagIfSupported "-Wno-multichar"
  let c := match max_stack_size with
    | some n => c.define "LUAI_MAXSTACK" (some (toString n))
    | none => c
  let c := match use_longjmp with
    | some true => c.define "LUA_USE_LONGJMP" (some "1")
    | _ => c
  if debug_assertions then
    c.define "LUA_USE_APICHECK" none
  else
    (((c.define "NDEBUG" none).optLevel 2).flagIfSupported "-fno-math-errno")

/-- What the Architecture Dispatcher (the `match target` at lines 105-124)
adds to the support-library configuration: an extra macro, extra source
directories (relative to the Soup source root), extra best-effort flags. -/
structure ArchAug where
  definitions : List (String × Option String)
  extra_dirs : List String
  flags : List String
deriving Repr, DecidableEq

/-- The x86_64 branch's best-effort CPU-feature flags (lines 110-115). -/
def x86_64Flags : List String :=
  ["-maes", "-mpclmul", "-mrdrnd", "-mrdseed", "-msha", "-msse4.1"]

/-- The aarch64 branch's best-effort architecture flag (line 121). -/
def aarch64Flags : List String := ["-march=armv8-a+crypto+crc"]

/-- The Architecture Dispatcher (lines 105-124): substring dispatch on the
target triple, `x86_64` tested first, catch-all adds nothing. -/
def archDispatch (target : String) : ArchAug :=
  if strContains target "x86_64" then
    { definitions := [("SOUP_USE_INTRIN", none)], extra_dirs := ["Intrin"],
      flags := x86_64Flags }
  else if strContains target "aarch64" then
    { definitions := [("SOUP_USE_INTRIN", none)], extra_dirs := ["Intrin"],
      flags := aarch64Flags }
  else
    { definitions := [], extra_dirs := [], flags := [] }

/-- Applies a dispatcher augmentation in the order the code performs it:
define the macro(s), enumerate the extra source directory(ies), request the
flags.  `none` models the `read_dir` panic inside the branch. -/
def applyArchAug (fs : Fs) (soupSourceDir : String) (aug : ArchAug)
    (c : CcBuild) : Option CcBuild :=
  let c := aug.definitions.foldl (fun c kv => c.define kv.1 kv.2) c
  let c := aug.extra_dirs.foldl
    (fun acc d => match acc with
      | none => none
      | some c => addFilesByExt fs (soupSourceDir ++ "/" ++ d) "cpp" c)
    (some c)
  match c with
  | none => none
  | some c => some (aug.flags.foldl (fun c f => c.flagIfSupported f) c)

/-- Embeds `Build::build()` (lines 58-139): returns the result (`Except.error`
models an `expect`/`unwrap` panic) and the ordered trace of file-system
effects.  `manifestDir` is the compile-time `env!("CARGO_MANIFEST_DIR")`;
`debug_assertions` is the compile-time `cfg!(debug_assertions)`. -/
def Build.build (b : Build) (env : Env) (fs : Fs) (manifestDir : String)
    (debug_assertions : Bool) : Except String Artifacts × List FsOp :=
  match b.target with
  | none => (Except.error "TARGET not set", [])
  | some target =>
    match b.host with
    | none => (Except.error "HOST not set", [])
    | some host =>
      match b.out_dir with
      | none => (Except.error "OUT_DIR not set", [])
      | some outDir =>
        let plutoSourceDir := manifestDir ++ "/pluto"
        let soupSourceDir := plutoSourceDir ++ "/vendor/Soup"
        let cleanup := if fs.pathExists outDir
          then [FsOp.removeDirAll outDir] else []
        let config := baseConfig target host b.max_stack_size b.use_longjmp
          debug_assertions
        match addFilesByExt fs (soupSourceDir ++ "/soup") "cpp" config with
        | none => (Except.error "read_dir failed", cleanup)
        | some soupConfig0 =>
          match applyArchAug fs soupSourceDir (archDispatch target)
              soupConfig0 with
          | none => (Except.error "read_dir failed", cleanup)
          | some soupConfig1 =>
            let soupConfig := soupConfig1.setOutDir outDir
            match addFilesByExt fs plutoSourceDir "cpp" config with
            | none => (Except.error "read_dir failed",
                cleanup ++ [FsOp.compile soupConfig "soup"])
            | some plutoConfig0 =>
              let plutoConfig := plutoConfig0.setOutDir outDir
              let stdlib := get_cpp_link_stdlib env target host
              let arts : Artifacts :=
                { lib_dir := outDir, libs := ["pluto", "soup"],
                  cpp_stdlib := stdlib }
              (Except.ok arts,
               cleanup ++ [FsOp.compile soupConfig "soup",
                           FsOp.compile plutoConfig "pluto"])

/-- Embeds `Artifacts::print_cargo_metadata` (lines 183-191) as the list of printed
directive lines, in emission order. -/
def Artifacts.print_cargo_metadata (a : Artifacts) : List String :=
  ("cargo:rustc-link-search=native=" ++ a.lib_dir)
    :: a.libs.map (fun lib => "cargo:rustc-link-lib=static=" ++ lib)
    ++ (match a.cpp_stdlib with
        | some s => ["cargo:rustc-link-lib=" ++ s]
        | none => [])

/-! ## Shared concrete inputs for witnesses -/

/-- The empty environment snapshot: every variable unset. -/
def sampleEnv : Env := fun _ => none

/-- A directory-listing oracle for a manifest dir `m` with the layout the
orchestrator expects (flat pluto tree, Soup tree with soup/ and Intrin/). -/
def sampleReadDir : String → Option (List String) := fun d =>
  if d = "m/pluto" then some ["a.cpp", "b.txt"]
  else if d = "m/pluto/vendor/Soup/soup" then some ["s.cpp"]
  else if d = "m/pluto/vendor/Soup/Intrin" then some ["i.cpp"]
  else none

/-- A file system where the output directory `out` already exists. -/
def sampleFs : Fs := ⟨fun p => p == "out", sampleReadDir⟩

/-- A fully configured builder targeting x86_64 linux. -/
def sampleBuild : Build :=
  ⟨some "out", some "x86_64-unknown-linux-gnu",
   some "x86_64-unknown-linux-gnu", none, none⟩

/-! ## C1: the standard-library name resolver -/

/-- Claim C1: `resolve(target, host)`: when none of the four override
variables is set, the result is the platform-family fallback (absent for
msvc; `c++` for apple/freebsd/openbsd; `c++_shared` for android; `stdc++`
otherwise, tested in that order); and otherwise the first matching override
wins, in the order exact-triple key, underscore-normalized-triple key,
`HOST`/`TARGET`-generic key (`HOST` iff host = target), fully generic key —
any override taking precedence over every platform-family fallback. -/
theorem get_cpp_link_stdlib_spec (env : Env) (target host : String) :
    (env ("CXXSTDLIB_" ++ target) = none →
     env ("CXXSTDLIB_" ++ replaceHyphens target) = none →
     env ((if host = target then "HOST" else "TARGET") ++ "_CXXSTDLIB") = none →
     env "CXXSTDLIB" = none →
     get_cpp_link_stdlib env target host =
       (if strContains target "msvc" then none
        else if strContains target "apple" || strContains target "freebsd"
             || strContains target "openbsd" then some "c++"
        else if strContains target "android" then some "c++_shared"
        else some "stdc++"))
  ∧ (∀ v, env ("CXXSTDLIB_" ++ target) = some v →
       get_cpp_link_stdlib env target host = some v)
  ∧ (∀ v, env ("CXXSTDLIB_" ++ target) = none →
       env ("CXXSTDLIB_" ++ replaceHyphens target) = some v →
       get_cpp_link_stdlib env target host = some v)
  ∧ (∀ v, env ("CXXSTDLIB_" ++ target) = none →
       env ("CXXSTDLIB_" ++ replaceHyphens target) = none →
       env ((if host = target then "HOST" else "TARGET") ++ "_CXXSTDLIB") = some v →
       get_cpp_link_stdlib env target host = some v)
  ∧ (∀ v, env ("CXXSTDLIB_" ++ target) = none →
       env ("CXXSTDLIB_" ++ replaceHyphens target) = none →
       env ((if host = target then "HOST" else "TARGET") ++ "_CXXSTDLIB") = none →
       env "CXXSTDLIB" = some v →
       get_cpp_link_stdlib env target host = some v) := by
  refine ⟨?_, ?_, ?_, ?_, ?_⟩
  · intro h1 h2 h3 h4
    simp only [get_cpp_link_stdlib, h1, h2, h3, h4]
  · intro v h1
    simp only [get_cpp_link_stdlib, h1]
  · intro v h1 h2
    simp only [get_cpp_link_stdlib, h1, h2]
  · intro v h1 h2 h3
    simp only [get_cpp_link_stdlib, h1, h2, h3]
  · intro v h1 h2 h3 h4
    simp only [get_cpp_link_stdlib, h1, h2, h3, h4]

/-- Witness for C1: the empty environment resolves the Apple triple to
`c++`, and an exact-triple override on an msvc triple beats the msvc
fallback. -/
theorem get_cpp_link_stdlib_spec_witness :
    get_cpp_link_stdlib sampleEnv "x86_64-apple-darwin" "x86_64-apple-darwin"
      = some "c++"
  ∧ get_cpp_link_stdlib
      (fun k => if k = "CXXSTDLIB_x86_64-pc-windows-msvc" then some "mine" else none)
      "x86_64-pc-windows-msvc" "x86_64-unknown-linux-gnu" = some "mine" := by
  constructor
  · exact ((get_cpp_link_stdlib_spec sampleEnv "x86_64-apple-darwin"
      "x86_64-apple-darwin").1 rfl rfl rfl rfl).trans (by decide)
  · exact (get_cpp_link_stdlib_spec _ "x86_64-pc-windows-msvc"
      "x86_64-unknown-linux-gnu").2.1 "mine" (by decide)

/-! ## C9: stack-size and longjmp macros -/

/-- Claim C9: If `max_stack_size` is `some n`, the base configuration defines
`LUAI_MAXSTACK` with the decimal string of `n`; if `use_longjmp` is
`some true`, it defines `LUA_USE_LONGJMP` (with value `1`). -/
theorem baseConfig_stack_longjmp (t h : String) (mss : Option Nat)
    (ulj : Option Bool) (dbg : Bool) :
    (∀ n, mss = some n →
      ("LUAI_MAXSTACK", some (toString n)) ∈
        (baseConfig t h mss ulj dbg).definitions)
  ∧ (ulj = some true →
      ("LUA_USE_LONGJMP", some "1") ∈
        (baseConfig t h mss ulj dbg).definitions) := by
  constructor
  · intro n hn
    subst hn
    cases ulj with
    | none => cases dbg <;>
        simp [baseConfig, ccNew, CcBuild.define, CcBuild.flagIfSupported,
          CcBuild.optLevel]
    | some u => cases u <;> cases dbg <;>
        simp [baseConfig, ccNew, CcBuild.define, CcBuild.flagIfSupported,
          CcBuild.optLevel]
  · intro hu
    subst hu
    cases mss with
    | none => cases dbg <;>
        simp [baseConfig, ccNew, CcBuild.define, CcBuild.flagIfSupported,
          CcBuild.optLevel]
    | some n => cases dbg <;>
        simp [baseConfig, ccNew, CcBuild.define, CcBuild.flagIfSupported,
          CcBuild.optLevel]

/-- Witness for C9: both options set concretely. -/
theorem baseConfig_stack_longjmp_witness :
    ("LUAI_MAXSTACK", some (toString (1000000 : Nat))) ∈
      (baseConfig "t" "h" (some 1000000) (some true) false).definitions
  ∧ ("LUA_USE_LONGJMP", some "1") ∈
      (baseConfig "t" "h" (some 1000000) (some true) false).definitions :=
  ⟨(baseConfig_stack_longjmp "t" "h" (some 1000000) (some true) false).1
      1000000 rfl,
   (baseConfig_stack_longjmp "t" "h" (some 1000000) (some true) false).2 rfl⟩

/-! ## C10: use_longjmp(false) is the unset default -/

/-- Claim C10: Setting `use_longjmp` to `false` is observationally equivalent
to leaving it unset: the whole of `build()` (result and effect trace) is
identical, and a configuration built with `use_longjmp = some false` never
defines the `LUA_USE_LONGJMP` macro. -/
theorem use_longjmp_false_equiv (b : Build) (env : Env) (fs : Fs)
    (md : String) (dbg : Bool) :
    (b.setUseLongjmp false).build env fs md dbg =
      ({ b with use_longjmp := none } : Build).build env fs md dbg
  ∧ ∀ (t h : String) (mss : Option Nat),
      ("LUA_USE_LONGJMP", some "1") ∉
        (baseConfig t h mss (some false) dbg).definitions := by
  constructor
  · rfl
  · intro t h mss
    cases mss <;> cases dbg <;>
      simp [baseConfig, ccNew, CcBuild.define, CcBuild.flagIfSupported,
        CcBuild.optLevel]

/-- Witness for C10: a concrete build with `use_longjmp(false)` equals the
same build with the option unset. -/
theorem use_longjmp_false_equiv_witness :
    (sampleBuild.setUseLongjmp false).build sampleEnv sampleFs "m" false =
      ({ sampleBuild with use_longjmp := none } : Build).build sampleEnv
        sampleFs "m" false :=
  (use_longjmp_false_equiv sampleBuild sampleEnv sampleFs "m" false).1

/-! ## Helper lemmas on the configuration operations -/

/-- Lemma: `add_files_by_ext` only appends source files: every other modelled field
is unchanged. -/
theorem addFilesByExt_fields (fs : Fs) (dir ext : String) (c c' : CcBuild)
    (h : addFilesByExt fs dir ext c = some c') :
    c'.definitions = c.definitions ∧ c'.flags_supported = c.flags_supported ∧
    c'.opt_level = c.opt_level ∧ c'.out_dir = c.out_dir := by
  unfold addFilesByExt at h
  cases hr : fs.readDir dir with
  | none => rw [hr] at h; cases h
  | some es =>
    rw [hr] at h
    cases h
    exact ⟨rfl, rfl, rfl, rfl⟩

/-- Directory enumeration with an unchanged `readDir` oracle is unchanged. -/
theorem addFilesByExt_congr (fs fs2 : Fs) (hrd : fs2.readDir = fs.readDir)
    (d e : String) (c : CcBuild) :
    addFilesByExt fs2 d e c = addFilesByExt fs d e c := by
  unfold addFilesByExt; rw [hrd]

/-- Folding `define` over a list appends exactly that list of definitions
and touches nothing else. -/
theorem foldl_define_fields (l : List (String × Option String)) (c : CcBuild) :
    (l.foldl (fun c kv => c.define kv.1 kv.2) c).definitions
        = c.definitions ++ l
  ∧ (l.foldl (fun c kv => c.define kv.1 kv.2) c).flags_supported
        = c.flags_supported
  ∧ (l.foldl (fun c kv => c.define kv.1 kv.2) c).opt_level = c.opt_level
  ∧ (l.foldl (fun c kv => c.define kv.1 kv.2) c).out_dir = c.out_dir
  ∧ (l.foldl (fun c kv => c.define kv.1 kv.2) c).files = c.files := by
  induction l generalizing c with
  | nil => simp
  | cons kv l ih =>
    simp only [List.foldl_cons]
    have h := ih (c.define kv.1 kv.2)
    simpa [CcBuild.define, List.append_assoc] using h

/-- Folding `flag_if_supported` over a list appends exactly those flags and
touches nothing else. -/
theorem foldl_flag_fields (l : List String) (c : CcBuild) :
    (l.foldl (fun c f => c.flagIfSupported f) c).definitions = c.definitions
  ∧ (l.foldl (fun c f => c.flagIfSupported f) c).flags_supported
        = c.flags_supported ++ l
  ∧ (l.foldl (fun c f => c.flagIfSupported f) c).opt_level = c.opt_level
  ∧ (l.foldl (fun c f => c.flagIfSupported f) c).out_dir = c.out_dir := by
  induction l generalizing c with
  | nil => simp
  | cons f l ih =>
    simp only [List.foldl_cons]
    have h := ih (c.flagIfSupported f)
    simpa [CcBuild.flagIfSupported, List.append_assoc] using h

/-- The extra-directory enumeration fold of `applyArchAug`, when it
succeeds, leaves definitions, flags, opt level and out dir unchanged. -/
theorem foldl_addFiles_fields (fs : Fs) (sd : String) (l : List String)
    (c c' : CcBuild)
    (h : l.foldl (fun acc d => match acc with
          | none => none
          | some c => addFilesByExt fs (sd ++ "/" ++ d) "cpp" c)
        (some c) = some c') :
    c'.definitions = c.definitions ∧ c'.flags_supported = c.flags_supported ∧
    c'.opt_level = c.opt_level ∧ c'.out_dir = c.out_dir := by
  induction l generalizing c with
  | nil =>
    cases h
    exact ⟨rfl, rfl, rfl, rfl⟩
  | cons d l ih =>
    simp only [List.foldl_cons] at h
    cases h1 : addFilesByExt fs (sd ++ "/" ++ d) "cpp" c with
    | none =>
      rw [h1] at h
      exfalso
      clear h1 ih
      induction l with
      | nil => cases h
      | cons d2 l2 ih2 => exact ih2 h
    | some c1 =>
      rw [h1] at h
      have h2 := ih c1 h
      have h3 := addFilesByExt_fields fs (sd ++ "/" ++ d) "cpp" c c1 h1
      exact ⟨h2.1.trans h3.1, h2.2.1.trans h3.2.1,
             h2.2.2.1.trans h3.2.2.1, h2.2.2.2.trans h3.2.2.2⟩

/-- Lemma: `applyArchAug`, when it succeeds, appends exactly the augmentation's
definitions and flags and preserves opt level and out dir. -/
theorem applyArchAug_fields (fs : Fs) (sd : String) (aug : ArchAug)
    (c c' : CcBuild) (h : applyArchAug fs sd aug c = some c') :
    c'.definitions = c.definitions ++ aug.definitions ∧
    c'.flags_supported = c.flags_supported ++ aug.flags ∧
    c'.opt_level = c.opt_level ∧ c'.out_dir = c.out_dir := by
  simp only [applyArchAug] at h
  cases h2 : aug.extra_dirs.foldl (fun acc d => match acc with
      | none => none
      | some c => addFilesByExt fs (sd ++ "/" ++ d) "cpp" c)
      (some (aug.definitions.foldl (fun c kv => c.define kv.1 kv.2) c)) with
  | none => rw [h2] at h; cases h
  | some c2 =>
    rw [h2] at h
    cases h
    have hdef := foldl_define_fields aug.definitions c
    have hdir := foldl_addFiles_fields fs sd aug.extra_dirs _ c2 h2
    have hflag := foldl_flag_fields aug.flags c2
    refine ⟨hflag.1.trans (hdir.1.trans hdef.1), ?_, ?_, ?_⟩
    · rw [hflag.2.1, hdir.2.1, hdef.2.1]
    · rw [hflag.2.2.1, hdir.2.2.1, hdef.2.2.1]
    · rw [hflag.2.2.2, hdir.2.2.2, hdef.2.2.2.1]

/-- Characterization of a successful `build()`: the artifacts value, the
effect trace (cleanup, then the two compilations in order), and how each
unit's configuration relates to the shared base and the dispatcher. -/
theorem build_ok_spec (od t h : String) (mss : Option Nat) (ulj : Option Bool)
    (env : Env) (fs : Fs) (md : String) (dbg : Bool) (a : Artifacts)
    (hok : ((Build.mk (some od) (some t) (some h) mss ulj).build env fs md
      dbg).1 = Except.ok a) :
    a = ⟨od, ["pluto", "soup"], get_cpp_link_stdlib env t h⟩ ∧
    ∃ soupCfg plutoCfg,
      ((Build.mk (some od) (some t) (some h) mss ulj).build env fs md dbg).2 =
        (if fs.pathExists od then [FsOp.removeDirAll od] else []) ++
        [FsOp.compile soupCfg "soup", FsOp.compile plutoCfg "pluto"] ∧
      soupCfg.definitions =
        (baseConfig t h mss ulj dbg).definitions ++ (archDispatch t).definitions ∧
      soupCfg.flags_supported =
        (baseConfig t h mss ulj dbg).flags_supported ++ (archDispatch t).flags ∧
      soupCfg.opt_level = (baseConfig t h mss ulj dbg).opt_level ∧
      plutoCfg.definitions = (baseConfig t h mss ulj dbg).definitions ∧
      plutoCfg.flags_supported = (baseConfig t h mss ulj dbg).flags_supported ∧
      plutoCfg.opt_level = (baseConfig t h mss ulj dbg).opt_level := by
  simp only [Build.build] at hok ⊢
  cases h1 : addFilesByExt fs (md ++ "/pluto" ++ "/vendor/Soup" ++ "/soup")
      "cpp" (baseConfig t h mss ulj dbg) with
  | none =>
    simp only [h1] at hok
    exact Except.noConfusion hok
  | some soupConfig0 =>
    simp only [h1] at hok ⊢
    cases h2 : applyArchAug fs (md ++ "/pluto" ++ "/vendor/Soup")
        (archDispatch t) soupConfig0 with
    | none =>
      simp only [h2] at hok
      exact Except.noConfusion hok
    | some soupConfig1 =>
      simp only [h2] at hok ⊢
      cases h3 : addFilesByExt fs (md ++ "/pluto") "cpp"
          (baseConfig t h mss ulj dbg) with
      | none =>
        simp only [h3] at hok
        exact Except.noConfusion hok
      | some plutoConfig0 =>
        simp only [h3] at hok ⊢
        obtain ⟨hd1, hf1, ho1, _⟩ := addFilesByExt_fields _ _ _ _ _ h1
        obtain ⟨hd2, hf2, ho2, _⟩ := applyArchAug_fields _ _ _ _ _ h2
        obtain ⟨hd3, hf3, ho3, _⟩ := addFilesByExt_fields _ _ _ _ _ h3
        refine ⟨?_, soupConfig1.setOutDir od, plutoConfig0.setOutDir od,
          rfl, ?_, ?_, ?_, ?_, ?_, ?_⟩
        · exact (Except.ok.inj hok).symm
        · show soupConfig1.definitions = _
          rw [hd2, hd1]
        · show soupConfig1.flags_supported = _
          rw [hf2, hf1]
        · show soupConfig1.opt_level = _
          rw [ho2, ho1]
        · show plutoConfig0.definitions = _
          rw [hd3]
        · show plutoConfig0.flags_supported = _
          rw [hf3]
        · show plutoConfig0.opt_level = _
          rw [ho3]

/-- The base configuration's definitions, in order: the optional stack-size
macro, the optional longjmp macro, then the build-type macro. -/
theorem baseConfig_definitions (t h : String) (mss : Option Nat)
    (ulj : Option Bool) (dbg : Bool) :
    (baseConfig t h mss ulj dbg).definitions =
      (match mss with
        | some n => [("LUAI_MAXSTACK", some (toString n))]
        | none => []) ++
      (match ulj with
        | some true => [("LUA_USE_LONGJMP", some "1")]
        | _ => []) ++
      (if dbg then [("LUA_USE_APICHECK", (none : Option String))]
       else [("NDEBUG", (none : Option String))]) := by
  cases mss <;> rcases ulj with _ | u
  · cases dbg <;> rfl
  · cases u <;> cases dbg <;> rfl
  · cases dbg <;> rfl
  · cases u <;> cases dbg <;> rfl

/-- The base configuration's best-effort flag requests. -/
theorem baseConfig_flags (t h : String) (mss : Option Nat)
    (ulj : Option Bool) (dbg : Bool) :
    (baseConfig t h mss ulj dbg).flags_supported =
      ["-fvisibility=hidden", "-fno-rtti", "-Wno-multichar"] ++
      (if dbg then [] else ["-fno-math-errno"]) := by
  cases mss <;> rcases ulj with _ | u
  · cases dbg <;> rfl
  · cases u <;> cases dbg <;> rfl
  · cases dbg <;> rfl
  · cases u <;> cases dbg <;> rfl

/-- The base configuration's optimization level: raised to 2 in release. -/
theorem baseConfig_opt_level (t h : String) (mss : Option Nat)
    (ulj : Option Bool) (dbg : Bool) :
    (baseConfig t h mss ulj dbg).opt_level =
      if dbg then none else some 2 := by
  cases mss <;> rcases ulj with _ | u
  · cases dbg <;> rfl
  · cases u <;> cases dbg <;> rfl
  · cases dbg <;> rfl
  · cases u <;> cases dbg <;> rfl

/-- Every definition the dispatcher can add is the intrinsics macro. -/
theorem archDispatch_definitions_sub (t : String) (p : String × Option String)
    (hp : p ∈ (archDispatch t).definitions) :
    p = ("SOUP_USE_INTRIN", none) := by
  unfold archDispatch at hp
  rcases hx : strContains t "x86_64" <;>
    rcases ha : strContains t "aarch64" <;> simp [hx, ha] at hp <;>
    exact hp

/-- Applying `applyArchAug` with an unchanged `readDir` oracle is unchanged. -/
theorem applyArchAug_congr (fs fs2 : Fs) (hrd : fs2.readDir = fs.readDir)
    (sd : String) (aug : ArchAug) (c : CcBuild) :
    applyArchAug fs2 sd aug c = applyArchAug fs sd aug c := by
  simp only [applyArchAug, addFilesByExt, hrd]

/-! ## C2: the Architecture Dispatcher -/

/-- Claim C2: The dispatcher is a total Lean function (never panics on any
triple) and: a triple containing `x86_64` gets the intrinsics macro, the
`Intrin` source directory, and the six x86 best-effort flags; a triple
containing `aarch64` (and not `x86_64`) gets the macro, the directory, and
the ARMv8-A crypto+CRC flag; any other triple gets no augmentation at all.
The macro-and-directory augmentation happens exactly when the triple
contains `x86_64` or `aarch64`, and in a successful build the
support-library configuration receives exactly the dispatcher's
definitions and flags on top of the shared base. -/
theorem archDispatch_spec (target : String) :
    (strContains target "x86_64" = true →
      archDispatch target =
        ⟨[("SOUP_USE_INTRIN", none)], ["Intrin"], x86_64Flags⟩)
  ∧ (strContains target "x86_64" = false → strContains target "aarch64" = true →
      archDispatch target =
        ⟨[("SOUP_USE_INTRIN", none)], ["Intrin"], aarch64Flags⟩)
  ∧ (strContains target "x86_64" = false → strContains target "aarch64" = false →
      archDispatch target = ⟨[], [], []⟩)
  ∧ ((("SOUP_USE_INTRIN", none) ∈ (archDispatch target).definitions ∧
      "Intrin" ∈ (archDispatch target).extra_dirs) ↔
     (strContains target "x86_64" = true ∨ strContains target "aarch64" = true))
  ∧ (∀ (od hst : String) (mss : Option Nat) (ulj : Option Bool) (env : Env)
        (fs : Fs) (md : String) (dbg : Bool) (a : Artifacts),
      ((Build.mk (some od) (some target) (some hst) mss ulj).build env fs md
        dbg).1 = Except.ok a →
      ∃ soupCfg,
        FsOp.compile soupCfg "soup" ∈
          ((Build.mk (some od) (some target) (some hst) mss ulj).build env fs
            md dbg).2 ∧
        soupCfg.definitions = (baseConfig target hst mss ulj dbg).definitions
          ++ (archDispatch target).definitions ∧
        soupCfg.flags_supported =
          (baseConfig target hst mss ulj dbg).flags_supported
          ++ (archDispatch target).flags) := by
  refine ⟨?_, ?_, ?_, ?_, ?_⟩
  · intro h1; simp only [archDispatch, h1, if_true]
  · intro h1 h2; simp only [archDispatch, h1, h2]; rfl
  · intro h1 h2; simp only [archDispatch, h1, h2]; rfl
  · unfold archDispatch
    rcases h1 : strContains target "x86_64" <;>
      rcases h2 : strContains target "aarch64" <;> simp
  · intro od hst mss ulj env fs md dbg a hok
    obtain ⟨-, soupCfg, plutoCfg, htr, hsd, hsf, -⟩ :=
      build_ok_spec od target hst mss ulj env fs md dbg a hok
    exact ⟨soupCfg, by simp [htr], hsd, hsf⟩

/-- Witness for C2: one triple per dispatch branch, plus the concrete
successful build whose soup configuration carries the x86_64 additions. -/
theorem archDispatch_spec_witness :
    (archDispatch "x86_64-unknown-linux-gnu" =
      ⟨[("SOUP_USE_INTRIN", none)], ["Intrin"], x86_64Flags⟩)
  ∧ (archDispatch "aarch64-linux-android" =
      ⟨[("SOUP_USE_INTRIN", none)], ["Intrin"], aarch64Flags⟩)
  ∧ (archDispatch "riscv64gc-unknown-linux-gnu" = ⟨[], [], []⟩)
  ∧ (∃ soupCfg,
      FsOp.compile soupCfg "soup" ∈
        ((Build.mk (some "out") (some "x86_64-unknown-linux-gnu")
          (some "x86_64-unknown-linux-gnu") none none).build sampleEnv
          sampleFs "m" false).2 ∧
      soupCfg.definitions =
        (baseConfig "x86_64-unknown-linux-gnu" "x86_64-unknown-linux-gnu"
          none none false).definitions
        ++ (archDispatch "x86_64-unknown-linux-gnu").definitions ∧
      soupCfg.flags_supported =
        (baseConfig "x86_64-unknown-linux-gnu" "x86_64-unknown-linux-gnu"
          none none false).flags_supported
        ++ (archDispatch "x86_64-unknown-linux-gnu").flags) :=
  ⟨(archDispatch_spec "x86_64-unknown-linux-gnu").1 (by decide),
   (archDispatch_spec "aarch64-linux-android").2.1 (by decide) (by decide),
   (archDispatch_spec "riscv64gc-unknown-linux-gnu").2.2.1 (by decide)
     (by decide),
   (archDispatch_spec "x86_64-unknown-linux-gnu").2.2.2.2 "out"
     "x86_64-unknown-linux-gnu" none none sampleEnv sampleFs "m" false
     ⟨"out", ["pluto", "soup"], some "stdc++"⟩ rfl⟩

/-! ## C6: missing preconditions abort before any mutation -/

/-- Claim C6: If any of target, host, out_dir is absent when `build()` runs,
the result is a fatal error (a panic, not a recoverable value) and the
effect trace is empty: the output directory is neither created nor
deleted, and nothing is compiled. -/
theorem build_missing_fatal (b : Build) (env : Env) (fs : Fs) (md : String)
    (dbg : Bool)
    (habs : b.target = none ∨ b.host = none ∨ b.out_dir = none) :
    (∃ msg, (b.build env fs md dbg).1 = Except.error msg) ∧
    (b.build env fs md dbg).2 = [] := by
  obtain ⟨od, tg, hs, mss, ulj⟩ := b
  cases tg with
  | none => exact ⟨⟨"TARGET not set", rfl⟩, rfl⟩
  | some t =>
    cases hs with
    | none => exact ⟨⟨"HOST not set", rfl⟩, rfl⟩
    | some h =>
      cases od with
      | none => exact ⟨⟨"OUT_DIR not set", rfl⟩, rfl⟩
      | some d => simp at habs

/-- Witness for C6: target unset, output directory present on disk — the
build aborts and the existing directory is not deleted. -/
theorem build_missing_fatal_witness :
    (∃ msg, ((Build.mk (some "out") none (some "h") none none).build sampleEnv
      sampleFs "m" false).1 = Except.error msg) ∧
    ((Build.mk (some "out") none (some "h") none none).build sampleEnv
      sampleFs "m" false).2 = [] :=
  build_missing_fatal (Build.mk (some "out") none (some "h") none none)
    sampleEnv sampleFs "m" false (Or.inl rfl)

/-! ## C7: cleanup of a pre-existing output directory -/

/-- Claim C7: When the configured output directory already exists, the very
first file-system effect of `build()` is its recursive removal — it
precedes every compilation (no later effect is a removal) — and the
build's result (success or failure) does not depend on whether the
directory existed, so a second invocation against the same directory
cannot fail because of files the first one left behind. -/
theorem build_cleanup_spec (od t h : String) (mss : Option Nat)
    (ulj : Option Bool) (env : Env) (fs : Fs) (md : String) (dbg : Bool)
    (hex : fs.pathExists od = true) :
    (∃ rest, ((Build.mk (some od) (some t) (some h) mss ulj).build env fs md
        dbg).2 = FsOp.removeDirAll od :: rest ∧
      ∀ p, FsOp.removeDirAll p ∉ rest) ∧
    (∀ fs2 : Fs, fs2.readDir = fs.readDir →
      ((Build.mk (some od) (some t) (some h) mss ulj).build env fs2 md dbg).1 =
      ((Build.mk (some od) (some t) (some h) mss ulj).build env fs md dbg).1) := by
  constructor
  · simp only [Build.build, hex, if_true]
    cases h1 : addFilesByExt fs (md ++ "/pluto" ++ "/vendor/Soup" ++ "/soup")
        "cpp" (baseConfig t h mss ulj dbg) with
    | none => exact ⟨[], by simp [h1], by simp⟩
    | some soupConfig0 =>
      cases h2 : applyArchAug fs (md ++ "/pluto" ++ "/vendor/Soup")
          (archDispatch t) soupConfig0 with
      | none => exact ⟨[], by simp [h1, h2], by simp⟩
      | some soupConfig1 =>
        cases h3 : addFilesByExt fs (md ++ "/pluto") "cpp"
            (baseConfig t h mss ulj dbg) with
        | none =>
          exact ⟨[FsOp.compile (soupConfig1.setOutDir od) "soup"],
            by simp [h1, h2, h3], by simp⟩
        | some plutoConfig0 =>
          exact ⟨[FsOp.compile (soupConfig1.setOutDir od) "soup",
                  FsOp.compile (plutoConfig0.setOutDir od) "pluto"],
            by simp [h1, h2, h3], by simp⟩
  · intro fs2 hrd
    simp only [Build.build, addFilesByExt_congr fs fs2 hrd,
      applyArchAug_congr fs fs2 hrd]
    cases h1 : addFilesByExt fs (md ++ "/pluto" ++ "/vendor/Soup" ++ "/soup")
        "cpp" (baseConfig t h mss ulj dbg) with
    | none => simp [h1]
    | some soupConfig0 =>
      cases h2 : applyArchAug fs (md ++ "/pluto" ++ "/vendor/Soup")
          (archDispatch t) soupConfig0 with
      | none => simp [h1, h2]
      | some soupConfig1 =>
        cases h3 : addFilesByExt fs (md ++ "/pluto") "cpp"
            (baseConfig t h mss ulj dbg) with
        | none => simp [h1, h2, h3]
        | some plutoConfig0 => simp [h1, h2, h3]

/-- Witness for C7: the sample file system has the output directory `out`
already present; the trace starts with its removal and the result is the
same as on a file system where `out` is absent. -/
theorem build_cleanup_spec_witness :
    (∃ rest, ((Build.mk (some "out") (some "x86_64-unknown-linux-gnu")
        (some "x86_64-unknown-linux-gnu") none none).build sampleEnv sampleFs
        "m" false).2 = FsOp.removeDirAll "out" :: rest ∧
      ∀ p, FsOp.removeDirAll p ∉ rest) ∧
    ((Build.mk (some "out") (some "x86_64-unknown-linux-gnu")
        (some "x86_64-unknown-linux-gnu") none none).build sampleEnv
        (Fs.mk (fun _ => false) sampleReadDir) "m" false).1 =
    ((Build.mk (some "out") (some "x86_64-unknown-linux-gnu")
        (some "x86_64-unknown-linux-gnu") none none).build sampleEnv sampleFs
        "m" false).1 :=
  ⟨(build_cleanup_spec "out" "x86_64-unknown-linux-gnu"
      "x86_64-unknown-linux-gnu" none none sampleEnv sampleFs "m" false
      (by decide)).1,
   (build_cleanup_spec "out" "x86_64-unknown-linux-gnu"
      "x86_64-unknown-linux-gnu" none none sampleEnv sampleFs "m" false
      (by decide)).2 (Fs.mk (fun _ => false) sampleReadDir) rfl⟩

/-! ## C4: the main library is compiled with the unaugmented base config -/

/-- Claim C4: In every successful build, the configuration used to compile the
main library ("pluto") carries exactly the shared base definitions, flag
requests and optimization level: none of the Architecture Dispatcher's
additions (the intrinsics macro, the extra source directory's files, the
CPU-feature flags) leak into it, for every target triple. -/
theorem pluto_unaugmented (od t h : String) (mss : Option Nat)
    (ulj : Option Bool) (env : Env) (fs : Fs) (md : String) (dbg : Bool)
    (a : Artifacts)
    (hok : ((Build.mk (some od) (some t) (some h) mss ulj).build env fs md
      dbg).1 = Except.ok a) :
    ∃ plutoCfg,
      FsOp.compile plutoCfg "pluto" ∈
        ((Build.mk (some od) (some t) (some h) mss ulj).build env fs md dbg).2 ∧
      plutoCfg.definitions = (baseConfig t h mss ulj dbg).definitions ∧
      plutoCfg.flags_supported = (baseConfig t h mss ulj dbg).flags_supported ∧
      plutoCfg.opt_level = (baseConfig t h mss ulj dbg).opt_level ∧
      ("SOUP_USE_INTRIN", (none : Option String)) ∉ plutoCfg.definitions ∧
      ∀ f ∈ (archDispatch t).flags, f ∉ plutoCfg.flags_supported := by
  obtain ⟨-, soupCfg, plutoCfg, htr, -, -, -, hd, hf, ho⟩ :=
    build_ok_spec od t h mss ulj env fs md dbg a hok
  refine ⟨plutoCfg, by simp [htr], hd, hf, ho, ?_, ?_⟩
  · rw [hd, baseConfig_definitions]
    rcases ulj with _ | u
    · cases mss <;> cases dbg <;> simp
    · cases u <;> cases mss <;> cases dbg <;> simp
  · intro f hfl
    rw [hf, baseConfig_flags]
    revert hfl
    unfold archDispatch
    rcases hx : strContains t "x86_64" <;>
      rcases ha : strContains t "aarch64" <;>
      simp [x86_64Flags, aarch64Flags] <;> intro hfl <;> cases dbg <;>
      rcases hfl with rfl | rfl | rfl | rfl | rfl | rfl <;> simp

/-- Witness for C4: a concrete successful x86_64 build. -/
theorem pluto_unaugmented_witness :
    ∃ plutoCfg,
      FsOp.compile plutoCfg "pluto" ∈
        ((Build.mk (some "out") (some "x86_64-unknown-linux-gnu")
          (some "x86_64-unknown-linux-gnu") none none).build sampleEnv
          sampleFs "m" false).2 ∧
      plutoCfg.definitions =
        (baseConfig "x86_64-unknown-linux-gnu" "x86_64-unknown-linux-gnu"
          none none false).definitions ∧
      plutoCfg.flags_supported =
        (baseConfig "x86_64-unknown-linux-gnu" "x86_64-unknown-linux-gnu"
          none none false).flags_supported ∧
      plutoCfg.opt_level =
        (baseConfig "x86_64-unknown-linux-gnu" "x86_64-unknown-linux-gnu"
          none none false).opt_level ∧
      ("SOUP_USE_INTRIN", (none : Option String)) ∉ plutoCfg.definitions ∧
      ∀ f ∈ (archDispatch "x86_64-unknown-linux-gnu").flags,
        f ∉ plutoCfg.flags_supported :=
  pluto_unaugmented "out" "x86_64-unknown-linux-gnu"
    "x86_64-unknown-linux-gnu" none none sampleEnv sampleFs "m" false
    ⟨"out", ["pluto", "soup"], some "stdc++"⟩ rfl

/-! ## C5: library order and metadata emission -/

/-- Claim C5: Every successful build stores `libs = ["pluto", "soup"]` (main
library first, regardless of target), and `print_cargo_metadata` emits
exactly: one native search-path directive for the output directory, then
one static-link directive per stored library in that order, then one extra
link directive for the runtime library exactly when `cpp_stdlib` was
resolved. -/
theorem artifacts_order_metadata (od t h : String) (mss : Option Nat)
    (ulj : Option Bool) (env : Env) (fs : Fs) (md : String) (dbg : Bool)
    (a : Artifacts)
    (hok : ((Build.mk (some od) (some t) (some h) mss ulj).build env fs md
      dbg).1 = Except.ok a) :
    a.libs = ["pluto", "soup"] ∧
    a.print_cargo_metadata =
      ["cargo:rustc-link-search=native=" ++ a.lib_dir,
       "cargo:rustc-link-lib=static=pluto",
       "cargo:rustc-link-lib=static=soup"] ++
      (match a.cpp_stdlib with
       | some s => ["cargo:rustc-link-lib=" ++ s]
       | none => []) := by
  obtain ⟨ha, -⟩ := build_ok_spec od t h mss ulj env fs md dbg a hok
  subst ha
  exact ⟨rfl, rfl⟩

/-- Witness for C5: the concrete sample build; the resolved stdlib
`stdc++` appears as the final link directive. -/
theorem artifacts_order_metadata_witness :
    (⟨"out", ["pluto", "soup"], some "stdc++"⟩ : Artifacts).libs =
      ["pluto", "soup"] ∧
    (⟨"out", ["pluto", "soup"], some "stdc++"⟩ :
        Artifacts).print_cargo_metadata =
      ["cargo:rustc-link-search=native=out",
       "cargo:rustc-link-lib=static=pluto",
       "cargo:rustc-link-lib=static=soup",
       "cargo:rustc-link-lib=stdc++"] := by
  have h := artifacts_order_metadata "out" "x86_64-unknown-linux-gnu"
    "x86_64-unknown-linux-gnu" none none sampleEnv sampleFs "m" false
    ⟨"out", ["pluto", "soup"], some "stdc++"⟩ rfl
  exact ⟨h.1, h.2.trans (by decide)⟩

/-! ## C8: mutually exclusive debug/release branch, shared by both units -/

/-- Claim C8: Exactly one build-type branch is active: the base configuration
defines `LUA_USE_APICHECK` precisely in a debug build and `NDEBUG`
precisely in a release build (never both, never neither), a release build
raises the optimization level to 2 and requests `-fno-math-errno` while a
debug build does neither; and in a successful build the chosen branch shows
up identically in both compiled units' configurations. -/
theorem debug_release_branch (od t h : String) (mss : Option Nat)
    (ulj : Option Bool) (env : Env) (fs : Fs) (md : String) (dbg : Bool)
    (a : Artifacts)
    (hok : ((Build.mk (some od) (some t) (some h) mss ulj).build env fs md
      dbg).1 = Except.ok a) :
    ((("LUA_USE_APICHECK", (none : Option String)) ∈
        (baseConfig t h mss ulj dbg).definitions) ↔ dbg = true) ∧
    ((("NDEBUG", (none : Option String)) ∈
        (baseConfig t h mss ulj dbg).definitions) ↔ dbg = false) ∧
    (dbg = false → (baseConfig t h mss ulj dbg).opt_level = some 2 ∧
        "-fno-math-errno" ∈ (baseConfig t h mss ulj dbg).flags_supported) ∧
    (dbg = true → (baseConfig t h mss ulj dbg).opt_level = none ∧
        "-fno-math-errno" ∉ (baseConfig t h mss ulj dbg).flags_supported) ∧
    (∀ cfg lib, FsOp.compile cfg lib ∈
        ((Build.mk (some od) (some t) (some h) mss ulj).build env fs md
          dbg).2 →
      ((("LUA_USE_APICHECK", (none : Option String)) ∈ cfg.definitions) ↔
        dbg = true) ∧
      ((("NDEBUG", (none : Option String)) ∈ cfg.definitions) ↔
        dbg = false) ∧
      cfg.opt_level = (baseConfig t h mss ulj dbg).opt_level) := by
  have hbase : ∀ k : String × Option String,
      (k = ("LUA_USE_APICHECK", none) ∨ k = ("NDEBUG", none)) →
      ((k ∈ (baseConfig t h mss ulj dbg).definitions) ↔
        (if dbg then k = ("LUA_USE_APICHECK", none)
         else k = ("NDEBUG", none))) := by
    intro k hk
    rw [baseConfig_definitions]
    rcases ulj with _ | u
    · rcases hk with rfl | rfl <;> cases mss <;> cases dbg <;> simp
    · rcases hk with rfl | rfl <;> cases u <;> cases mss <;> cases dbg <;>
        simp
  have hdisp : ∀ k : String × Option String,
      (k = ("LUA_USE_APICHECK", none) ∨ k = ("NDEBUG", none)) →
      k ∉ (archDispatch t).definitions := by
    intro k hk hmem
    have := archDispatch_definitions_sub t k hmem
    rcases hk with rfl | rfl <;> simp at this
  obtain ⟨-, soupCfg, plutoCfg, htr, hsd, -, hso, hpd, -, hpo⟩ :=
    build_ok_spec od t h mss ulj env fs md dbg a hok
  have h1 := hbase ("LUA_USE_APICHECK", none) (Or.inl rfl)
  have h2 := hbase ("NDEBUG", none) (Or.inr rfl)
  refine ⟨?_, ?_, ?_, ?_, ?_⟩
  · rw [h1]; cases dbg <;> simp
  · rw [h2]; cases dbg <;> simp
  · intro hrel
    subst hrel
    rw [baseConfig_opt_level, baseConfig_flags]
    simp
  · intro hdbg
    subst hdbg
    rw [baseConfig_opt_level, baseConfig_flags]
    simp
  · intro cfg lib hmem
    rw [htr] at hmem
    have hcfg : cfg = soupCfg ∨ cfg = plutoCfg := by
      rw [List.mem_append] at hmem
      rcases hmem with hmem | hmem
      · exfalso
        revert hmem
        cases fs.pathExists od <;> simp
      · simp at hmem
        rcases hmem with ⟨h, -⟩ | ⟨h, -⟩
        · exact Or.inl h
        · exact Or.inr h
    rcases hcfg with rfl | rfl
    · refine ⟨?_, ?_, hso⟩
      · rw [hsd]
        simp only [List.mem_append]
        rw [h1]
        have := hdisp ("LUA_USE_APICHECK", none) (Or.inl rfl)
        cases dbg <;> simp [this]
      · rw [hsd]
        simp only [List.mem_append]
        rw [h2]
        have := hdisp ("NDEBUG", none) (Or.inr rfl)
        cases dbg <;> simp [this]
    · refine ⟨?_, ?_, hpo⟩
      · rw [hpd, h1]; cases dbg <;> simp
      · rw [hpd, h2]; cases dbg <;> simp

/-- Witness for C8: in a concrete release build, `NDEBUG` is defined and
`LUA_USE_APICHECK` is not. -/
theorem debug_release_branch_witness :
    ("NDEBUG", (none : Option String)) ∈
      (baseConfig "x86_64-unknown-linux-gnu" "x86_64-unknown-linux-gnu"
        none none false).definitions ∧
    ("LUA_USE_APICHECK", (none : Option String)) ∉
      (baseConfig "x86_64-unknown-linux-gnu" "x86_64-unknown-linux-gnu"
        none none false).definitions := by
  have hc := debug_release_branch "out" "x86_64-unknown-linux-gnu"
    "x86_64-unknown-linux-gnu" none none sampleEnv sampleFs "m" false
    ⟨"out", ["pluto", "soup"], some "stdc++"⟩ rfl
  exact ⟨hc.2.1.mpr rfl, fun hx => by simpa using hc.1.mp hx⟩

/-! ## C3: which environment variables are read when -/

/-- C3 counterexample: the `CXXSTDLIB` override variables are read during
`build()` (inside `get_cpp_link_stdlib`), not snapshotted at `new()`.
With one fixed configured `Build` value, two `build()` invocations under
environments differing only in `CXXSTDLIB` return different Artifacts, so
the claim that the environment is read exactly once at construction and
never re-read during `build()` is false. -/
theorem env_reread_counterexample :
    (sampleBuild.build sampleEnv sampleFs "m" false).1 ≠
    (sampleBuild.build (fun k => if k = "CXXSTDLIB" then some "mylib"
      else none) sampleFs "m" false).1 := by
  intro hcontra
  have h1 : (sampleBuild.build sampleEnv sampleFs "m" false).1 =
      Except.ok ⟨"out", ["pluto", "soup"], some "stdc++"⟩ := rfl
  have h2 : (sampleBuild.build (fun k => if k = "CXXSTDLIB" then some "mylib"
      else none) sampleFs "m" false).1 =
      Except.ok ⟨"out", ["pluto", "soup"], some "mylib"⟩ := rfl
  rw [h1, h2] at hcontra
  simp at hcontra

/-- Claim C3 (amended): `new()` snapshots exactly `OUT_DIR`, `TARGET` and
`HOST` (environments agreeing on those three construct identical `Build`
values), and those three are not re-read during `build()`; but the four
`CXXSTDLIB` override variables ARE read during `build()`'s stdlib
resolution, so two invocations of `build()` on a fixed configured `Build`
produce identical results whenever the two process environments agree on
those four override keys for the configured target and host — agreement on
everything else (including `OUT_DIR`/`TARGET`/`HOST`) is irrelevant. -/
theorem env_snapshot_amended (b : Build) (t h : String) (env1 env2 : Env)
    (fs : Fs) (md : String) (dbg : Bool)
    (ht : b.target = some t) (hh : b.host = some h)
    (h1 : env1 ("CXXSTDLIB_" ++ t) = env2 ("CXXSTDLIB_" ++ t))
    (h2 : env1 ("CXXSTDLIB_" ++ replaceHyphens t) =
          env2 ("CXXSTDLIB_" ++ replaceHyphens t))
    (h3 : env1 ((if h = t then "HOST" else "TARGET") ++ "_CXXSTDLIB") =
          env2 ((if h = t then "HOST" else "TARGET") ++ "_CXXSTDLIB"))
    (h4 : env1 "CXXSTDLIB" = env2 "CXXSTDLIB") :
    b.build env1 fs md dbg = b.build env2 fs md dbg ∧
    (∀ e1 e2 : Env, e1 "OUT_DIR" = e2 "OUT_DIR" → e1 "TARGET" = e2 "TARGET" →
      e1 "HOST" = e2 "HOST" → Build.new e1 = Build.new e2) := by
  constructor
  · have hg : get_cpp_link_stdlib env1 t h = get_cpp_link_stdlib env2 t h := by
      simp only [get_cpp_link_stdlib, h1, h2, h3, h4]
    obtain ⟨od, tg, hs, mss, ulj⟩ := b
    simp only at ht hh
    subst ht
    subst hh
    simp only [Build.build, hg]
  · intro e1 e2 g1 g2 g3
    simp only [Build.new, g1, g2, g3]

/-- Witness for C3's amended theorem: the two environments differ on
`OUT_DIR`, `TARGET` and `HOST` but agree (unset) on every `CXXSTDLIB`
override key, and the two builds coincide. -/
theorem env_snapshot_amended_witness :
    sampleBuild.build sampleEnv sampleFs "m" false =
      sampleBuild.build (fun k => if k = "OUT_DIR" then some "elsewhere"
        else if k = "TARGET" then some "other" else none) sampleFs "m"
        false :=
  (env_snapshot_amended sampleBuild "x86_64-unknown-linux-gnu"
    "x86_64-unknown-linux-gnu" sampleEnv
    (fun k => if k = "OUT_DIR" then some "elsewhere"
      else if k = "TARGET" then some "other" else none)
    sampleFs "m" false rfl rfl (by decide) (by decide) (by decide)
    (by decide)).1
